import Mathlib

set_option maxRecDepth 8000

/-! Verification development for the Real-ESRGAN web server
(`web_server.py`).  The request-handling flow is shallowly embedded:
the handler and the process invoker become pure Lean functions over an
explicit `World` describing the parts of the environment the code
consults (executable present, process result, output file present,
unlink success, the generated unique identifiers), and the file-system
and process side effects are recorded as an explicit event trace.
Library calls made by the code (`json.loads`, `base64.b64decode`,
`str.split`, UTF-8 decoding, `int`, `os.path.dirname`) are modelled as
executable Lean functions faithful to their documented behaviour on
the inputs this server can feed them. -/

/-- JSON values as produced by the `json.loads` model.  Numbers keep
their literal text; the server only ever inspects truthiness of the
parsed values, and a JSON number is zero exactly when its mantissa has
no nonzero digit. -/
inductive Json where
  | null : Json
  | bool (b : Bool) : Json
  | num (lit : String) : Json
  | str (s : String) : Json
  | arr (xs : List Json) : Json
  | obj (fields : List (String × Json)) : Json

/-- Model of CPython `dict.get` on the dictionary built by
`json.loads`: with duplicate keys the last binding wins. -/
def jsonGet (fields : List (String × Json)) (k : String) : Option Json :=
  fields.foldl (fun acc p => if p.1 = k then some p.2 else acc) none

/-- Model of Python truthiness (`not x`) on JSON-decoded values:
`None`, `False`, numeric zero, and empty str/list/dict are falsy.  The
non-finite floats `json.loads` produces for `NaN`, `Infinity` and
`-Infinity` are truthy; a finite number is zero exactly when its
mantissa has no nonzero digit. -/
def pyTruthy : Json → Bool
  | Json.null => false
  | Json.bool b => b
  | Json.num lit =>
      if lit == "NaN" || lit == "Infinity" || lit == "-Infinity" then true
      else
        (lit.data.takeWhile (fun c => c != 'e' && c != 'E')).any
          (fun c => c.isDigit && c != '0')
  | Json.str s => !s.data.isEmpty
  | Json.arr xs => !xs.isEmpty
  | Json.obj fs => !fs.isEmpty

/-- Truthiness of `data.get('image')`: `None` (absent key) is falsy. -/
def pyTruthyOpt : Option Json → Bool
  | none => false
  | some v => pyTruthy v

/-- Continuation byte test for the UTF-8 decoder model. -/
def isCont (b : Nat) : Bool := decide (0x80 ≤ b) && decide (b < 0xC0)

/-- Model of `bytes.decode('utf-8')` (strict): rejects lone
continuation bytes, overlong forms, surrogates and out-of-range
leads, returning `none` exactly when CPython raises
`UnicodeDecodeError`. -/
def utf8Decode : List Nat → Option (List Char)
  | [] => some []
  | b1 :: rest =>
    if b1 < 0x80 then (utf8Decode rest).map (fun cs => Char.ofNat b1 :: cs)
    else if b1 < 0xC2 then none
    else if b1 < 0xE0 then
      match rest with
      | b2 :: rest2 =>
        if isCont b2 then
          (utf8Decode rest2).map
            (fun cs => Char.ofNat ((b1 - 0xC0) * 0x40 + (b2 - 0x80)) :: cs)
        else none
      | [] => none
    else if b1 < 0xF0 then
      match rest with
      | b2 :: b3 :: rest3 =>
        if (if b1 = 0xE0 then 0xA0 else 0x80) ≤ b2 ∧
            b2 ≤ (if b1 = 0xED then 0x9F else 0xBF) ∧ isCont b3 then
          (utf8Decode rest3).map
            (fun cs =>
              Char.ofNat
                ((b1 - 0xE0) * 0x1000 + (b2 - 0x80) * 0x40 + (b3 - 0x80)) :: cs)
        else none
      | _ => none
    else if b1 < 0xF5 then
      match rest with
      | b2 :: b3 :: b4 :: rest4 =>
        if (if b1 = 0xF0 then 0x90 else 0x80) ≤ b2 ∧
            b2 ≤ (if b1 = 0xF4 then 0x8F else 0xBF) ∧ isCont b3 ∧ isCont b4 then
          (utf8Decode rest4).map
            (fun cs =>
              Char.ofNat
                ((b1 - 0xF0) * 0x40000 + (b2 - 0x80) * 0x1000 +
                  (b3 - 0x80) * 0x40 + (b4 - 0x80)) :: cs)
        else none
      | _ => none
    else none

/-- JSON insignificant whitespace. -/
def jsonWs (c : Char) : Bool := c == ' ' || c == '\t' || c == '\n' || c == '\r'

/-- Skip JSON whitespace. -/
def skipWs (l : List Char) : List Char := l.dropWhile jsonWs

/-- Hexadecimal digit value, for `\uXXXX` escapes. -/
def hexVal (c : Char) : Option Nat :=
  if '0' ≤ c ∧ c ≤ '9' then some (c.toNat - 48)
  else if 'a' ≤ c ∧ c ≤ 'f' then some (c.toNat - 87)
  else if 'A' ≤ c ∧ c ≤ 'F' then some (c.toNat - 55)
  else none

/-- Single-character JSON string escapes. -/
def jsonEsc : Char → Option Char
  | '"' => some '"'
  | '\\' => some '\\'
  | '/' => some '/'
  | 'b' => some (Char.ofNat 8)
  | 'f' => some (Char.ofNat 12)
  | 'n' => some '\n'
  | 'r' => some '\r'
  | 't' => some '\t'
  | _ => none

/-- Stand-in character for a lone surrogate kept by `json.loads`.  A
Lean `Char` cannot carry a surrogate code point, so the model stores
U+FFFD instead; this is observationally equivalent for this server,
since a lone surrogate and U+FFFD are both non-ASCII (so both make
the later implicit ASCII encode of `b64decode` raise) and neither can
occur in the key `"image"`. -/
def replChar : Char := Char.ofNat 0xFFFD

/-- Parse the body of a JSON string after the opening quote, returning
the decoded characters and the input after the closing quote.  Raw
control characters are rejected (strict mode of `json.loads`); paired
surrogate `\u` escapes combine, and lone surrogates are accepted as
CPython accepts them (stored as `replChar`, see there).  The first
argument is fuel; every step consumes at least one input character,
so callers pass the input length plus one and the fuel never runs
out. -/
def parseStrChars : Nat → List Char → Option (List Char × List Char)
  | 0, _ => none
  | _ + 1, [] => none
  | _ + 1, '"' :: r => some ([], r)
  | fuel + 1, '\\' :: r =>
    match r with
    | 'u' :: h1 :: h2 :: h3 :: h4 :: r2 =>
      match hexVal h1, hexVal h2, hexVal h3, hexVal h4 with
      | some a, some b, some c, some d =>
        let code := a * 4096 + b * 256 + c * 16 + d
        if 0xD800 ≤ code ∧ code ≤ 0xDBFF then
          match r2 with
          | '\\' :: 'u' :: g1 :: g2 :: g3 :: g4 :: r3 =>
            match hexVal g1, hexVal g2, hexVal g3, hexVal g4 with
            | some a2, some b2, some c2, some d2 =>
              let code2 := a2 * 4096 + b2 * 256 + c2 * 16 + d2
              if 0xDC00 ≤ code2 ∧ code2 ≤ 0xDFFF then
                (parseStrChars fuel r3).map
                  (fun p =>
                    (Char.ofNat
                        (0x10000 + (code - 0xD800) * 0x400 + (code2 - 0xDC00)) ::
                      p.1, p.2))
              else
                (parseStrChars fuel r2).map (fun p => (replChar :: p.1, p.2))
            | _, _, _, _ =>
              (parseStrChars fuel r2).map (fun p => (replChar :: p.1, p.2))
          | _ => (parseStrChars fuel r2).map (fun p => (replChar :: p.1, p.2))
        else if 0xDC00 ≤ code ∧ code ≤ 0xDFFF then
          (parseStrChars fuel r2).map (fun p => (replChar :: p.1, p.2))
        else
          (parseStrChars fuel r2).map (fun p => (Char.ofNat code :: p.1, p.2))
      | _, _, _, _ => none
    | e :: r2 =>
      match jsonEsc e with
      | some c => (parseStrChars fuel r2).map (fun p => (c :: p.1, p.2))
      | none => none
    | [] => none
  | fuel + 1, c :: r =>
    if c.toNat < 0x20 then none
    else (parseStrChars fuel r).map (fun p => (c :: p.1, p.2))

/-- Parse an optional JSON fraction part, returning the consumed
characters and the rest. -/
def parseFrac : List Char → Option (List Char × List Char)
  | '.' :: r =>
      let ds := r.takeWhile Char.isDigit
      if ds.isEmpty then none else some ('.' :: ds, r.drop ds.length)
  | l => some ([], l)

/-- Parse an optional JSON exponent part. -/
def parseExp : List Char → Option (List Char × List Char)
  | c :: r =>
      if c == 'e' || c == 'E' then
        match r with
        | s :: r2 =>
          if s == '+' || s == '-' then
            let ds := r2.takeWhile Char.isDigit
            if ds.isEmpty then none else some (c :: s :: ds, r2.drop ds.length)
          else
            let ds := r.takeWhile Char.isDigit
            if ds.isEmpty then none else some (c :: ds, r.drop ds.length)
        | [] => none
      else some ([], c :: r)
  | [] => some ([], [])

/-- Parse a JSON number literal (kept as text), per the JSON grammar:
optional minus, integer part with no leading zeros, optional fraction,
optional exponent. -/
def parseNumber (l : List Char) : Option (String × List Char) :=
  let sign : Bool := match l with
    | '-' :: _ => true
    | _ => false
  let l1 := if sign then l.tail else l
  match l1 with
  | c :: r =>
    if c.isDigit then
      let intDigits := if c = '0' then [c] else c :: r.takeWhile Char.isDigit
      let rest1 := l1.drop intDigits.length
      match parseFrac rest1 with
      | none => none
      | some fr =>
        match parseExp fr.2 with
        | none => none
        | some ex =>
          some
            (String.mk ((if sign then ['-'] else []) ++ intDigits ++ fr.1 ++ ex.1),
              ex.2)
    else none
  | [] => none

mutual

/-- Recursive-descent JSON value parser (fuel-indexed model of
`json.loads`, including its documented acceptance of the non-standard
constants `NaN`, `Infinity` and `-Infinity`). -/
def parseValue : Nat → List Char → Option (Json × List Char)
  | 0, _ => none
  | fuel + 1, l =>
    match skipWs l with
    | 'n' :: 'u' :: 'l' :: 'l' :: r => some (Json.null, r)
    | 't' :: 'r' :: 'u' :: 'e' :: r => some (Json.bool true, r)
    | 'f' :: 'a' :: 'l' :: 's' :: 'e' :: r => some (Json.bool false, r)
    | 'N' :: 'a' :: 'N' :: r => some (Json.num ("NaN"), r)
    | 'I' :: 'n' :: 'f' :: 'i' :: 'n' :: 'i' :: 't' :: 'y' :: r =>
      some (Json.num ("Infinity"), r)
    | '-' :: 'I' :: 'n' :: 'f' :: 'i' :: 'n' :: 'i' :: 't' :: 'y' :: r =>
      some (Json.num ("-Infinity"), r)
    | '"' :: r =>
      (parseStrChars (r.length + 1) r).map
        (fun p => (Json.str (String.mk p.1), p.2))
    | '{' :: r =>
      match skipWs r with
      | '}' :: r2 => some (Json.obj [], r2)
      | r2 => (parseMembers fuel r2).map (fun p => (Json.obj p.1, p.2))
    | '[' :: r =>
      match skipWs r with
      | ']' :: r2 => some (Json.arr [], r2)
      | r2 => (parseElements fuel r2).map (fun p => (Json.arr p.1, p.2))
    | l2 => (parseNumber l2).map (fun p => (Json.num p.1, p.2))

/-- Parse the members of a nonempty JSON object. -/
def parseMembers : Nat → List Char → Option (List (String × Json) × List Char)
  | 0, _ => none
  | fuel + 1, l =>
    match skipWs l with
    | '"' :: r =>
      match parseStrChars (r.length + 1) r with
      | none => none
      | some (key, r2) =>
        match skipWs r2 with
        | ':' :: r3 =>
          match parseValue fuel r3 with
          | none => none
          | some (v, r4) =>
            match skipWs r4 with
            | ',' :: r5 =>
              (parseMembers fuel r5).map
                (fun p => ((String.mk key, v) :: p.1, p.2))
            | '}' :: r5 => some ([(String.mk key, v)], r5)
            | _ => none
        | _ => none
    | _ => none

/-- Parse the elements of a nonempty JSON array. -/
def parseElements : Nat → List Char → Option (List Json × List Char)
  | 0, _ => none
  | fuel + 1, l =>
    match parseValue fuel l with
    | none => none
    | some (v, r) =>
      match skipWs r with
      | ',' :: r2 => (parseElements fuel r2).map (fun p => (v :: p.1, p.2))
      | ']' :: r2 => some ([v], r2)
      | _ => none

end

/-- Model of `json.loads` on a decoded string: parse one value, then
require only whitespace to remain. -/
def jsonParse (s : String) : Option Json :=
  match parseValue (2 * s.length + 2) s.data with
  | some (v, rest) => if (skipWs rest).isEmpty then some v else none
  | none => none

/-- Base64 alphabet value of a character (standard alphabet). -/
def b64Val (c : Char) : Option Nat :=
  if 'A' ≤ c ∧ c ≤ 'Z' then some (c.toNat - 65)
  else if 'a' ≤ c ∧ c ≤ 'z' then some (c.toNat - 71)
  else if '0' ≤ c ∧ c ≤ '9' then some (c.toNat + 4)
  else if c = '+' then some 62
  else if c = '/' then some 63
  else none

/-- The scanning loop of CPython `binascii.a2b_base64` in its default
lenient mode, carried over the remaining input, the position inside
the current quad (0-3), the leftover bits of the current quad, and the
count of padding characters seen at quad position 2 or later.  Bytes
are emitted as soon as a quad position completes them.  Characters
outside the alphabet are skipped; a `=` before quad position 2 is
skipped; once the padding count completes a quad (position plus pads
reaching 4) decoding succeeds immediately, ignoring any further
input; at end of input the quad must be complete, else the call
raises (`none`). -/
def b64Loop : List Char → Nat → Nat → Nat → Option (List Nat)
  | [], quadPos, _, _ => if quadPos = 0 then some [] else none
  | c :: rest, quadPos, leftchar, pads =>
    if c = '=' then
      if 2 ≤ quadPos ∧ 4 ≤ quadPos + (pads + 1) then some []
      else if 2 ≤ quadPos then b64Loop rest quadPos leftchar (pads + 1)
      else b64Loop rest quadPos leftchar pads
    else
      match b64Val c with
      | none => b64Loop rest quadPos leftchar pads
      | some v =>
        match quadPos with
        | 0 => b64Loop rest 1 v 0
        | 1 => (b64Loop rest 2 (v % 16) 0).map
            (fun bs => (leftchar * 4 + v / 16) :: bs)
        | 2 => (b64Loop rest 3 (v % 4) 0).map
            (fun bs => (leftchar * 16 + v / 4) :: bs)
        | _ => (b64Loop rest 0 0 0).map
            (fun bs => (leftchar * 64 + v) :: bs)

/-- Model of `base64.b64decode` on a Python `str` with default
`validate=False`: the string must be pure ASCII (otherwise the
implicit ASCII encode raises), then the lenient `a2b_base64` loop
runs; `none` models the raised exception. -/
def b64decodeL (l : List Char) : Option (List Nat) :=
  if l.any (fun c => decide (128 ≤ c.toNat)) then none
  else b64Loop l 0 0 0

/-- Model of Python `str.split(sep)` for a one-character separator
(on `List Char`): splitting never drops empty segments and always
returns at least one segment. -/
def splitChar (sep : Char) : List Char → List (List Char)
  | [] => [[]]
  | c :: cs =>
    let r := splitChar sep cs
    if c = sep then [] :: r else (c :: r.headD []) :: r.tail

/-- The data-URI stripping step of the enhance handler
(`if ',' in image_data: image_data = image_data.split(',')[1]`). -/
def stripDataUri (l : List Char) : List Char :=
  if ',' ∈ l then (splitChar ',' l).getD 1 [] else l

/-- Digits to a natural number, for the `int()` model. -/
def digitsToNat (l : List Char) : Nat :=
  l.foldl (fun acc c => acc * 10 + (c.toNat - 48)) 0

/-- Model of Python `int(s)` on a string: optional surrounding spaces,
optional sign, one or more digits. -/
def pyIntParse (s : String) : Option Int :=
  let l := ((s.data.dropWhile (fun c => c == ' ')).reverse.dropWhile
      (fun c => c == ' ')).reverse
  match l with
  | '-' :: ds =>
    if ds ≠ [] ∧ ds.all Char.isDigit then some (-(digitsToNat ds : Int)) else none
  | '+' :: ds =>
    if ds ≠ [] ∧ ds.all Char.isDigit then some (digitsToNat ds) else none
  | ds =>
    if ds ≠ [] ∧ ds.all Char.isDigit then some (digitsToNat ds) else none

/-- Model of the `str(e)` text of `int(None)`: `self.headers` returns
`None` for an absent header and `int` raises `TypeError`. -/
def intNoneErrText : String :=
  "int() argument must be a string, a bytes-like object or a real number, not NoneType"

/-- Model of `int(self.headers['Content-Length'])`: a missing header
is `None` and raises `TypeError`; a non-numeric value raises
`ValueError`.  The error carries the `str(e)` text. -/
def pyIntHeader : Option String → Except String Int
  | none => Except.error intNoneErrText
  | some s =>
    match pyIntParse s with
    | some n => Except.ok n
    | none => Except.error ("invalid literal for int() with base 10: " ++ s)

/-- Model of `self.rfile.read(n)`: at most `n` bytes of the body
(everything on a negative count). -/
def pyRead (body : List Nat) (n : Int) : List Nat :=
  if n < 0 then body else body.take n.toNat

/-- Model of `os.path.dirname` (posix): the text up to the last slash,
with trailing slashes stripped unless the head is all slashes. -/
def dirname (p : String) : String :=
  let l := p.data
  let head := (l.reverse.dropWhile (fun c => c != '/')).reverse
  let head2 :=
    if head ≠ [] ∧ head.any (fun c => c != '/') then
      (head.reverse.dropWhile (fun c => c == '/')).reverse
    else head
  String.mk head2

/-- Model of Python `str(x)` on the `error_msg` slot, which is either
a string or `None`. -/
def pyStr : Option String → String
  | none => "None"
  | some s => s

/-- The parts of the environment that `handle_enhance_request` and
`run_realesrgan` consult: whether the executable exists, the outcome
of `subprocess.run` (`Except.error` models an exception raised while
spawning, carrying `str(e)`; `Except.ok` carries return code, stdout,
stderr), whether the output file exists after the run, whether the
temp-file unlink succeeds, and the two `uuid.uuid4().hex` values. -/
structure World where
  exeExists : Bool
  procResult : Except String (Int × String × String)
  outputExists : Bool
  unlinkOk : Bool
  inputId : String
  outputId : String

/-- An incoming POST body: the `Content-Length` header (absent headers
are `None` in Python) and the raw request-body bytes. -/
structure Request where
  contentLength : Option String
  body : List Nat

/-- File-system and process events performed by the handler, in
order. -/
inductive Ev where
  | mkdir (path : String) : Ev
  | writeFile (path : String) (bytes : List Nat) : Ev
  | spawn (cmd : List String) : Ev
  | unlink (path : String) (ok : Bool) : Ev
deriving DecidableEq

/-- An HTTP response as produced by `send_json_response`: status code
plus JSON body. -/
structure Response where
  status : Nat
  body : Json

/-- The JSON error body `\x7b'error': msg\x7d`. -/
def errObj (msg : String) : Json := Json.obj [("error", Json.str msg)]

/-- The JSON success body of the enhance handler. -/
def successObj (url : String) : Json :=
  Json.obj
    [("success", Json.bool true), ("enhanced_image_url", Json.str url),
      ("message", Json.str ("تم تحسين الصورة بنجاح!"))]

/-- The fixed command line built by `run_realesrgan`: executable,
input, output, and the constant model name, tile size and
job-concurrency descriptor. -/
def realesrganCmd (base inputPath outputPath : String) : List String :=
  [base ++ "/realesrgan-ncnn-vulkan.exe", "-i", inputPath, "-o", outputPath,
    "-n", "realesrgan-x4plus", "-t", "256", "-j", "1:1:1"]

/-- Embedding of `run_realesrgan`: ensure the output directory exists
(`os.makedirs(..., exist_ok=True)` runs first), then check for the
executable and fail without spawning if absent; otherwise run the
fixed command, treating exit code 0 as success and reporting
stderr-else-stdout-else-generic on failure; a spawn exception is
caught and reported with its text. -/
def run_realesrgan (base inputPath outputPath : String) (w : World) :
    (Bool × Option String) × List Ev :=
  let mk := [Ev.mkdir (dirname outputPath)]
  if w.exeExists = false then
    ((false, some ("ملف Real-ESRGAN غير موجود")), mk)
  else
    let evs := mk ++ [Ev.spawn (realesrganCmd base inputPath outputPath)]
    match w.procResult with
    | Except.error e => ((false, some e), evs)
    | Except.ok (rc, out, err) =>
      if rc = 0 then ((true, none), evs)
      else
        ((false,
            some (if err ≠ "" then err else if out ≠ "" then out
              else ("خطأ غير معروف"))), evs)

/-- Model of the `str(e)` text of the `UnicodeDecodeError` raised by
`post_data.decode('utf-8')` on invalid UTF-8. -/
def unicodeErrText : String := "utf-8 codec cannot decode byte"

/-- Model of the `str(e)` text of the exception raised inside the
base64 try-block when decoding fails.  The real CPython message varies
with the failure mode (for example the number-of-data-characters
variant); this fixed text stands in for it — the server only embeds
the text after its own localized prefix, so only the branch taken and
the prefix are observable in the claims. -/
def b64ErrText : String := "Incorrect padding"

/-- Model of the `str(e)` text of the `TypeError` raised inside the
base64 try-block when the `image` value is truthy but not a string. -/
def typeErrText : String := "argument should be a bytes-like object or ASCII string"

/-- Model of the `str(e)` text of the `AttributeError` raised by
`data.get` when the parsed JSON document is not an object. -/
def attrErrText : String := "object has no attribute get"

/-- The temp directory created by the handler. -/
def tempDirOf (base : String) : String := base ++ "/temp"

/-- The per-request input temp filename `input_<id>.jpg`. -/
def inputFilenameOf (w : World) : String := "input_" ++ w.inputId ++ ".jpg"

/-- The per-request output filename `output_<id>.jpg`. -/
def outputFilenameOf (w : World) : String := "output_" ++ w.outputId ++ ".jpg"

/-- The input temp-file path `temp_dir / input_filename`. -/
def inputPathOf (base : String) (w : World) : String :=
  tempDirOf base ++ "/" ++ inputFilenameOf w

/-- The output path `base_path / 'results' / output_filename`. -/
def outputPathOf (base : String) (w : World) : String :=
  base ++ "/results/" ++ outputFilenameOf w

/-- Embedding of `handle_enhance_request`: read `Content-Length`
(`int(None)` raises before JSON parsing), read and UTF-8-decode the
body (a `UnicodeDecodeError` is caught only by the generic
`except Exception` branch), parse JSON (`json.JSONDecodeError` yields
the 400 branch), fetch and truthiness-test the `image` field, strip a
data-URI prefix and base64-decode inside the inner try (any failure
there yields the 400 decode-error branch), then create the temp
directory, write the input file, invoke the external tool, unlink the
temp file regardless of outcome (errors swallowed), and answer 200 on
success-with-output or 500 otherwise.  The model is total: every
exception path of the source is a caught branch here. -/
def handle_enhance_request (base : String) (req : Request) (w : World) :
    Response × List Ev :=
  match pyIntHeader req.contentLength with
  | Except.error e => (⟨500, errObj (("خطأ في الخادم: ") ++ e)⟩, [])
  | Except.ok n =>
    match utf8Decode (pyRead req.body n) with
    | none => (⟨500, errObj (("خطأ في الخادم: ") ++ unicodeErrText)⟩, [])
    | some chars =>
      match jsonParse (String.mk chars) with
      | none => (⟨400, errObj ("بيانات JSON غير صالحة")⟩, [])
      | some data =>
        match data with
        | Json.obj fields =>
          let imageOpt := jsonGet fields "image"
          if pyTruthyOpt imageOpt = false then
            (⟨400, errObj ("لم يتم العثور على بيانات الصورة")⟩, [])
          else
            match imageOpt with
            | some (Json.str s0) =>
              match b64decodeL (stripDataUri s0.data) with
              | none =>
                (⟨400, errObj (("خطأ في فك تشفير الصورة: ") ++ b64ErrText)⟩, [])
              | some imageBytes =>
                let inputPath := inputPathOf base w
                let outputPath := outputPathOf base w
                let r := run_realesrgan base inputPath outputPath w
                let evs :=
                  Ev.mkdir (tempDirOf base) ::
                    Ev.writeFile inputPath imageBytes ::
                      r.2 ++ [Ev.unlink inputPath w.unlinkOk]
                if r.1.1 = true ∧ w.outputExists = true then
                  (⟨200, successObj (("/results/") ++ outputFilenameOf w)⟩, evs)
                else
                  (⟨500, errObj (("فشل في تحسين الصورة: ") ++ pyStr r.1.2)⟩, evs)
            | _ =>
              (⟨400, errObj (("خطأ في فك تشفير الصورة: ") ++ typeErrText)⟩, [])
        | _ => (⟨500, errObj (("خطأ في الخادم: ") ++ attrErrText)⟩, [])

/-- Result of the GET router: a file is served (identified by its
filesystem path) or an HTTP error is sent. -/
inductive GetResult where
  | serveFile (path : String) : GetResult
  | httpError (code : Nat) (msg : String) : GetResult
deriving DecidableEq

/-- Does `l` start with `pre`?  (List-level, executable.) -/
def leadsWith (pre l : List Char) : Bool := l.take pre.length == pre

/-- Embedding of `do_GET`: `/` and `/index.html` serve the bundled
page; a path starting with `/results/` is joined to the base path
with only its leading slash removed (no normalization or containment
check) and served if it exists; everything else is a 404. -/
def do_GET (base path : String) (fileExists : String → Bool) : GetResult :=
  if path = "/" ∨ path = "/index.html" then
    GetResult.serveFile (base ++ "/web_interface.html")
  else if leadsWith ("/results/").data path.data then
    let filePath := base ++ "/" ++ String.mk (path.data.drop 1)
    if fileExists filePath then GetResult.serveFile filePath
    else GetResult.httpError 404 ("File not found")
  else GetResult.httpError 404 ("Page not found")

/-- Lexical normalization of an absolute posix path: resolve `.` and
`..` segments.  Used only to state where a served path actually
points. -/
def normPath (p : String) : String :=
  let segs := (splitChar '/' p.data).filter (fun s => !s.isEmpty && s != ['.'])
  let final :=
    segs.foldl
      (fun acc s => if s = ['.', '.'] then acc.dropLast else acc ++ [s])
      ([] : List (List Char))
  String.mk ('/' :: (final.intersperse ['/']).flatten)

/-- Is the (normalized) path `p` strictly inside directory `dir`? -/
def isUnder (dir p : String) : Bool := leadsWith (dir ++ "/").data p.data

/-- Modelled from the spec words of C1: "the substring after the first
comma (the whole remainder, including any later commas)". -/
def afterFirstCommaSpec (l : List Char) : List Char :=
  (l.dropWhile (fun c => c != ',')).tail

/-- ASCII bytes of a string, for building concrete request bodies. -/
def asciiBytes (s : String) : List Nat := s.data.map Char.toNat

/-- A sample world: executable absent, spawn would fail, no output
file, unlink succeeds. -/
def w0 : World :=
  { exeExists := false, procResult := Except.error ("spawn failed"),
    outputExists := false, unlinkOk := true, inputId := "aaaa",
    outputId := "bbbb" }

/-- A sample world with the executable present and a zero exit code,
output file produced. -/
def w1 : World :=
  { exeExists := true, procResult := Except.ok (0, "", ""),
    outputExists := true, unlinkOk := true, inputId := "aaaa",
    outputId := "bbbb" }

/-- `getD 1` of a list equals `getD 0` of its tail. -/
theorem getD_one_tail (r : List (List Char)) : r.getD 1 [] = r.tail.getD 0 [] := by
  cases r <;> rfl

/-- `getD 0` is `headD`. -/
theorem getD_zero_headD (r : List (List Char)) : r.getD 0 [] = r.headD [] := by
  cases r <;> rfl

/-- Splitting a separator-free list yields that list as the only
segment. -/
theorem splitChar_no_sep (sep : Char) (l : List Char) (h : sep ∉ l) :
    splitChar sep l = [l] := by
  induction l with
  | nil => rfl
  | cons c cs ih =>
    have hc : ¬c = sep := fun he => h (he ▸ List.mem_cons_self c cs)
    have hcs : sep ∉ cs := fun hm => h (List.mem_cons_of_mem c hm)
    simp [splitChar, hc, ih hcs]

/-- Splitting `cs ++ sep :: B` where `cs` is separator-free puts `cs`
as the first segment and continues on `B`. -/
theorem splitChar_append_sep (sep : Char) (cs B : List Char)
    (h : ∀ c ∈ cs, c ≠ sep) :
    splitChar sep (cs ++ sep :: B) = cs :: splitChar sep B := by
  induction cs with
  | nil => simp [splitChar]
  | cons c cs ih =>
    have hc : ¬c = sep := h c (List.mem_cons_self c cs)
    have h2 : ∀ x ∈ cs, x ≠ sep := fun x hx => h x (List.mem_cons_of_mem c hx)
    simp [splitChar, hc, ih h2]

/-- The first segment of a split is the longest separator-free
beginning. -/
theorem splitChar_headD (sep : Char) (l : List Char) :
    (splitChar sep l).headD [] = l.takeWhile (fun c => c != sep) := by
  induction l with
  | nil => rfl
  | cons c cs ih =>
    by_cases hc : c = sep
    · subst hc; simp [splitChar, List.takeWhile_cons]
    · simp [splitChar, hc, List.takeWhile_cons]
      simpa using ih

/-- Claim C1 (corrected): when the `image` value contains a comma, the
text passed to the base64 decoder is `split(',')[1]` — the segment
between the first and the second comma (which is the whole remainder
only when no further comma exists), not the whole remainder after the
first comma. -/
theorem C1_decode_input_is_second_segment (l : List Char) (h : ',' ∈ l) :
    stripDataUri l = (afterFirstCommaSpec l).takeWhile (fun c => c != ',') := by
  induction l with
  | nil => cases h
  | cons c cs ih =>
    by_cases hc : c = ','
    · subst hc
      have hs : splitChar ',' (',' :: cs) = [] :: splitChar ',' cs := by
        simp [splitChar]
      rw [stripDataUri, if_pos h, hs, getD_one_tail]
      simp only [List.tail_cons, getD_zero_headD, splitChar_headD]
      rw [afterFirstCommaSpec]
      simp [List.dropWhile_cons]
    · have hcs : ',' ∈ cs := by
        rcases List.mem_cons.mp h with h1 | h2
        · exact absurd h1.symm hc
        · exact h2
      have hs : splitChar ',' (c :: cs) =
          (c :: (splitChar ',' cs).headD []) :: (splitChar ',' cs).tail := by
        simp [splitChar, hc]
      rw [stripDataUri, if_pos h, hs, getD_one_tail]
      simp only [List.tail_cons]
      rw [← getD_one_tail]
      have hstrip : stripDataUri cs = (splitChar ',' cs).getD 1 [] := by
        rw [stripDataUri, if_pos hcs]
      rw [← hstrip, ih hcs, afterFirstCommaSpec, afterFirstCommaSpec]
      have hdrop : (c :: cs).dropWhile (fun x => x != ',') =
          cs.dropWhile (fun x => x != ',') := by
        simp [List.dropWhile_cons, hc]
      rw [hdrop]

/-- Witness for C1's corrected statement at a concrete input. -/
theorem C1_decode_input_is_second_segment_witness :
    stripDataUri (("x,y").data) =
      (afterFirstCommaSpec (("x,y").data)).takeWhile (fun c => c != ',') :=
  C1_decode_input_is_second_segment (("x,y").data) (by decide)

/-- Counterexample to claim C1 as stated: for the `image` value
`"p,AAAA,A"` the code passes `"AAAA"` (the segment between the two
commas) to the decoder, not the claimed remainder `"AAAA,A"`, and the
two decode differently — `"AAAA"` decodes to three bytes while the
remainder fails to decode. -/
theorem C1_counterexample :
    stripDataUri (("p,AAAA,A").data) = ("AAAA").data ∧
    afterFirstCommaSpec (("p,AAAA,A").data) = ("AAAA,A").data ∧
    stripDataUri (("p,AAAA,A").data) ≠ afterFirstCommaSpec (("p,AAAA,A").data) ∧
    b64decodeL (stripDataUri (("p,AAAA,A").data)) = some [0, 0, 0] ∧
    b64decodeL (afterFirstCommaSpec (("p,AAAA,A").data)) = none := by
  refine ⟨by decide, by decide, by decide, by decide, by decide⟩

/-- Claim C2 (confirmed): for a comma-free payload `B`, the handler's
decode step treats the data-URI form `data:image/png;base64,B` and the
raw form `B` identically. -/
theorem C2_data_uri_equivalence (B : List Char) (h : ',' ∉ B) :
    b64decodeL (stripDataUri (("data:image/png;base64,").data ++ B)) =
    b64decodeL (stripDataUri B) := by
  have hpre : ("data:image/png;base64,").data =
      ("data:image/png;base64").data ++ [','] := by decide
  have hmem : ',' ∈ ("data:image/png;base64,").data ++ B :=
    List.mem_append_left _ (by decide)
  have hsplit : splitChar ',' (("data:image/png;base64").data ++ ',' :: B) =
      ("data:image/png;base64").data :: splitChar ',' B :=
    splitChar_append_sep ',' _ B (by decide)
  have hB : splitChar ',' B = [B] := splitChar_no_sep ',' B h
  have h1 : stripDataUri (("data:image/png;base64,").data ++ B) = B := by
    rw [stripDataUri, if_pos hmem, hpre, List.append_assoc, List.singleton_append,
      hsplit, hB]
    rfl
  have h2 : stripDataUri B = B := by
    rw [stripDataUri, if_neg h]
  rw [h1, h2]

/-- Witness for C2 at a concrete comma-free payload. -/
theorem C2_data_uri_equivalence_witness :
    b64decodeL (stripDataUri (("data:image/png;base64,").data ++ ("QUJD").data)) =
    b64decodeL (stripDataUri (("QUJD").data)) :=
  C2_data_uri_equivalence (("QUJD").data) (by decide)

/-- Is an event a file write? -/
def isWriteEv : Ev → Bool
  | Ev.writeFile _ _ => true
  | _ => false

/-- The trace of `run_realesrgan` is either the lone `makedirs` (the
executable is absent) or `makedirs` followed by the spawn. -/
theorem run_realesrgan_trace (base i o : String) (w : World) :
    (run_realesrgan base i o w).2 = [Ev.mkdir (dirname o)] ∨
    (run_realesrgan base i o w).2 =
      [Ev.mkdir (dirname o), Ev.spawn (realesrganCmd base i o)] := by
  unfold run_realesrgan
  by_cases hw : w.exeExists = false
  · rw [if_pos hw]; left; rfl
  · rw [if_neg hw]
    rcases hp : w.procResult with e | ⟨rc, out, err⟩
    · right; rfl
    · by_cases hrc : rc = 0
      · right; simp only [if_pos hrc]; rfl
      · right; simp only [if_neg hrc]; rfl

/-- `run_realesrgan` never writes a file itself: its trace holds only
the `makedirs` and possibly the process spawn. -/
theorem run_realesrgan_writes_nothing (base i o : String) (w : World) :
    (run_realesrgan base i o w).2.filter isWriteEv = [] := by
  rcases run_realesrgan_trace base i o w with h | h <;> rw [h] <;> rfl

/-- Claim C10 (confirmed): a POST `/enhance` request without a
`Content-Length` header takes the generic server-error branch —
`int(None)` raises before JSON parsing — so the response is 500 (with
the exception text), not 400, and no file I/O happens. -/
theorem C10_missing_content_length_is_500 (base : String) (req : Request)
    (w : World) (h : req.contentLength = none) :
    handle_enhance_request base req w =
      (⟨500, errObj (("خطأ في الخادم: ") ++ intNoneErrText)⟩, []) ∧
    (handle_enhance_request base req w).1.status ≠ 400 := by
  have he : handle_enhance_request base req w =
      (⟨500, errObj (("خطأ في الخادم: ") ++ intNoneErrText)⟩, []) := by
    simp only [handle_enhance_request, h, pyIntHeader]
  exact ⟨he, by rw [he]; decide⟩

/-- Witness for C10 at a concrete header-less request. -/
theorem C10_missing_content_length_is_500_witness :
    handle_enhance_request ("B") ⟨none, []⟩ w0 =
      (⟨500, errObj (("خطأ في الخادم: ") ++ intNoneErrText)⟩, []) ∧
    (handle_enhance_request ("B") ⟨none, []⟩ w0).1.status ≠ 400 :=
  C10_missing_content_length_is_500 ("B") ⟨none, []⟩ w0 rfl

/-- Claim C3 (corrected): a body that reads as UTF-8 text but is
rejected by `json.loads` (`jsonParse` here — its faithful model,
which like CPython accepts `NaN`, `Infinity`, `-Infinity` and
lone-surrogate escapes) is answered with status 400 and the JSON-error
body, with no file I/O (empty trace) and no unhandled exception (the
embedding is total and this is a caught branch); however a body that
is not valid UTF-8 is answered 500, not 400 (see the
counterexample). -/
theorem C3_malformed_json_rejected (base : String) (req : Request) (w : World)
    (n : Int) (chars : List Char)
    (hcl : pyIntHeader req.contentLength = Except.ok n)
    (hutf : utf8Decode (pyRead req.body n) = some chars)
    (hjson : jsonParse (String.mk chars) = none) :
    handle_enhance_request base req w =
      (⟨400, errObj ("بيانات JSON غير صالحة")⟩, []) := by
  simp only [handle_enhance_request, hcl, hutf, hjson]

/-- Witness for C3's corrected statement: a truncated JSON body. -/
theorem C3_malformed_json_rejected_witness :
    handle_enhance_request ("B") ⟨some ("9"), asciiBytes ("\x7b\"image\":")⟩ w0 =
      (⟨400, errObj ("بيانات JSON غير صالحة")⟩, []) :=
  C3_malformed_json_rejected ("B") ⟨some ("9"), asciiBytes ("\x7b\"image\":")⟩
    w0 9 (("\x7b\"image\":").data) rfl rfl rfl

/-- Counterexample to claim C3 as stated: a body that is not valid
UTF-8 raises `UnicodeDecodeError`, which is not a
`json.JSONDecodeError`, so the generic handler answers 500 — not the
claimed 400. -/
theorem C3_counterexample_non_utf8 :
    (handle_enhance_request ("B") ⟨some ("1"), [255]⟩ w0).1.status = 500 ∧
    ¬(handle_enhance_request ("B") ⟨some ("1"), [255]⟩ w0).1.status = 400 := by
  exact ⟨rfl, by decide⟩

/-- Claim C5 (confirmed): when the parsed JSON object lacks a truthy
`image` value (absent key or empty string among others), the handler
answers 400 with a non-empty `error` message and performs no file
I/O. -/
theorem C5_missing_image_field (base : String) (req : Request) (w : World)
    (n : Int) (chars : List Char) (fields : List (String × Json))
    (hcl : pyIntHeader req.contentLength = Except.ok n)
    (hutf : utf8Decode (pyRead req.body n) = some chars)
    (hjson : jsonParse (String.mk chars) = some (Json.obj fields))
    (him : pyTruthyOpt (jsonGet fields ("image")) = false) :
    handle_enhance_request base req w =
      (⟨400, errObj ("لم يتم العثور على بيانات الصورة")⟩, []) ∧
    ("لم يتم العثور على بيانات الصورة" : String) ≠ "" := by
  constructor
  · simp [handle_enhance_request, hcl, hutf, hjson, him]
  · decide

/-- Witness for C5: the body `\x7b\x7d` with no `image` key. -/
theorem C5_missing_image_field_witness :
    handle_enhance_request ("B") ⟨some ("2"), asciiBytes ("\x7b\x7d")⟩ w0 =
      (⟨400, errObj ("لم يتم العثور على بيانات الصورة")⟩, []) ∧
    ("لم يتم العثور على بيانات الصورة" : String) ≠ "" :=
  C5_missing_image_field ("B") ⟨some ("2"), asciiBytes ("\x7b\x7d")⟩ w0 2
    (("\x7b\x7d").data) [] rfl rfl rfl rfl

/-- Claim C4 (confirmed): when the comma-stripped `image` value fails
base64 decoding, the handler answers 400 with an error message
describing the decode failure, and writes no temp file (empty
trace). -/
theorem C4_invalid_base64_rejected (base : String) (req : Request) (w : World)
    (n : Int) (chars : List Char) (fields : List (String × Json)) (s0 : String)
    (hcl : pyIntHeader req.contentLength = Except.ok n)
    (hutf : utf8Decode (pyRead req.body n) = some chars)
    (hjson : jsonParse (String.mk chars) = some (Json.obj fields))
    (himg : jsonGet fields ("image") = some (Json.str s0))
    (hne : s0.data.isEmpty = false)
    (hdec : b64decodeL (stripDataUri s0.data) = none) :
    handle_enhance_request base req w =
      (⟨400, errObj (("خطأ في فك تشفير الصورة: ") ++ b64ErrText)⟩, []) := by
  have htr : pyTruthyOpt (jsonGet fields ("image")) = true := by
    rw [himg]; simp [pyTruthyOpt, pyTruthy, hne]
  simp [handle_enhance_request, hcl, hutf, hjson, himg, htr, hdec, pyTruthyOpt,
    pyTruthy, hne]

/-- Witness for C4: the 3-character payload `AAA` is not valid
base64. -/
theorem C4_invalid_base64_rejected_witness :
    handle_enhance_request ("B")
        ⟨some ("15"), asciiBytes ("\x7b\"image\":\"AAA\"\x7d")⟩ w0 =
      (⟨400, errObj (("خطأ في فك تشفير الصورة: ") ++ b64ErrText)⟩, []) :=
  C4_invalid_base64_rejected ("B")
    ⟨some ("15"), asciiBytes ("\x7b\"image\":\"AAA\"\x7d")⟩ w0 15
    (("\x7b\"image\":\"AAA\"\x7d").data) [(("image"), Json.str ("AAA"))]
    ("AAA") rfl rfl rfl rfl rfl rfl

/-- Pipeline reduction helper: under a valid Content-Length, UTF-8
body, JSON object, truthy string `image` field and successful base64
decode, the handler's result is the invocation branch: temp mkdir,
input write, the invoker's trace, then the unlink, with the response
decided by invocation success and output existence. -/
theorem handle_reaches_invocation (base : String) (req : Request) (w : World)
    (n : Int) (chars : List Char) (fields : List (String × Json)) (s0 : String)
    (bytes : List Nat)
    (hcl : pyIntHeader req.contentLength = Except.ok n)
    (hutf : utf8Decode (pyRead req.body n) = some chars)
    (hjson : jsonParse (String.mk chars) = some (Json.obj fields))
    (himg : jsonGet fields ("image") = some (Json.str s0))
    (hne : s0.data.isEmpty = false)
    (hdec : b64decodeL (stripDataUri s0.data) = some bytes) :
    handle_enhance_request base req w =
      (if (run_realesrgan base (inputPathOf base w) (outputPathOf base w) w).1.1
            = true ∧ w.outputExists = true then
        ⟨200, successObj (("/results/") ++ outputFilenameOf w)⟩
      else
        ⟨500, errObj (("فشل في تحسين الصورة: ") ++
          pyStr (run_realesrgan base (inputPathOf base w)
            (outputPathOf base w) w).1.2)⟩,
      Ev.mkdir (tempDirOf base) ::
        Ev.writeFile (inputPathOf base w) bytes ::
          (run_realesrgan base (inputPathOf base w) (outputPathOf base w) w).2 ++
            [Ev.unlink (inputPathOf base w) w.unlinkOk]) := by
  by_cases hc : (run_realesrgan base (inputPathOf base w)
      (outputPathOf base w) w).1.1 = true ∧ w.outputExists = true
  · simp [handle_enhance_request, hcl, hutf, hjson, himg, hdec, pyTruthyOpt,
      pyTruthy, hne, hc]
  · simp [handle_enhance_request, hcl, hutf, hjson, himg, hdec, pyTruthyOpt,
      pyTruthy, hne, hc]

/-- Claim C6 (confirmed): a request that reaches the invocation writes
exactly one temp input file, and the unlink of that same file comes
after the invoker's events regardless of its outcome; the unlink
outcome (deletion errors are swallowed) does not change the
response. -/
theorem C6_temp_file_lifecycle (base : String) (req : Request) (w : World)
    (n : Int) (chars : List Char) (fields : List (String × Json)) (s0 : String)
    (bytes : List Nat)
    (hcl : pyIntHeader req.contentLength = Except.ok n)
    (hutf : utf8Decode (pyRead req.body n) = some chars)
    (hjson : jsonParse (String.mk chars) = some (Json.obj fields))
    (himg : jsonGet fields ("image") = some (Json.str s0))
    (hne : s0.data.isEmpty = false)
    (hdec : b64decodeL (stripDataUri s0.data) = some bytes) :
    (handle_enhance_request base req w).2 =
      Ev.mkdir (tempDirOf base) ::
        Ev.writeFile (inputPathOf base w) bytes ::
          (run_realesrgan base (inputPathOf base w) (outputPathOf base w) w).2 ++
            [Ev.unlink (inputPathOf base w) w.unlinkOk] ∧
    ((handle_enhance_request base req w).2.filter isWriteEv).length = 1 ∧
    (handle_enhance_request base req { w with unlinkOk := true }).1 =
      (handle_enhance_request base req { w with unlinkOk := false }).1 := by
  have h := handle_reaches_invocation base req w n chars fields s0 bytes hcl
    hutf hjson himg hne hdec
  refine ⟨?_, ?_, ?_⟩
  · rw [h]
  · rw [h]
    simp [isWriteEv, List.filter_append, run_realesrgan_writes_nothing]
  · have h1 := handle_reaches_invocation base req { w with unlinkOk := true } n
      chars fields s0 bytes hcl hutf hjson himg hne hdec
    have h2 := handle_reaches_invocation base req { w with unlinkOk := false } n
      chars fields s0 bytes hcl hutf hjson himg hne hdec
    rw [h1, h2]
    rfl

/-- Witness for C6 at a concrete request (valid JSON, payload `AAAA`),
in the world with the executable present and a produced output. -/
theorem C6_temp_file_lifecycle_witness :
    (handle_enhance_request ("B")
        ⟨some ("16"), asciiBytes ("\x7b\"image\":\"AAAA\"\x7d")⟩ w1).2 =
      Ev.mkdir (tempDirOf ("B")) ::
        Ev.writeFile (inputPathOf ("B") w1) [0, 0, 0] ::
          (run_realesrgan ("B") (inputPathOf ("B") w1)
              (outputPathOf ("B") w1) w1).2 ++
            [Ev.unlink (inputPathOf ("B") w1) w1.unlinkOk] ∧
    ((handle_enhance_request ("B")
        ⟨some ("16"), asciiBytes ("\x7b\"image\":\"AAAA\"\x7d")⟩ w1).2.filter
          isWriteEv).length = 1 ∧
    (handle_enhance_request ("B")
        ⟨some ("16"), asciiBytes ("\x7b\"image\":\"AAAA\"\x7d")⟩
        { w1 with unlinkOk := true }).1 =
      (handle_enhance_request ("B")
        ⟨some ("16"), asciiBytes ("\x7b\"image\":\"AAAA\"\x7d")⟩
        { w1 with unlinkOk := false }).1 :=
  C6_temp_file_lifecycle ("B")
    ⟨some ("16"), asciiBytes ("\x7b\"image\":\"AAAA\"\x7d")⟩ w1 16
    (("\x7b\"image\":\"AAAA\"\x7d").data) [(("image"), Json.str ("AAAA"))]
    ("AAAA") [0, 0, 0] rfl rfl rfl rfl rfl rfl

/-- Claim C8 (confirmed): once the invocation has run, the response is
200 with `success: true` and `enhanced_image_url` equal to
`/results/` plus the generated output filename exactly when the
invocation succeeded and the output file exists; in every other case
it is 500 with the localized failure message followed by the captured
error detail. -/
theorem C8_response_branches (base : String) (req : Request) (w : World)
    (n : Int) (chars : List Char) (fields : List (String × Json)) (s0 : String)
    (bytes : List Nat)
    (hcl : pyIntHeader req.contentLength = Except.ok n)
    (hutf : utf8Decode (pyRead req.body n) = some chars)
    (hjson : jsonParse (String.mk chars) = some (Json.obj fields))
    (himg : jsonGet fields ("image") = some (Json.str s0))
    (hne : s0.data.isEmpty = false)
    (hdec : b64decodeL (stripDataUri s0.data) = some bytes) :
    (handle_enhance_request base req w).1 =
      if (run_realesrgan base (inputPathOf base w) (outputPathOf base w) w).1.1
          = true ∧ w.outputExists = true then
        ⟨200, successObj (("/results/") ++ outputFilenameOf w)⟩
      else
        ⟨500, errObj (("فشل في تحسين الصورة: ") ++
          pyStr (run_realesrgan base (inputPathOf base w)
            (outputPathOf base w) w).1.2)⟩ := by
  rw [handle_reaches_invocation base req w n chars fields s0 bytes hcl hutf
    hjson himg hne hdec]

/-- Witness for C8 at the same concrete request, success world. -/
theorem C8_response_branches_witness :
    (handle_enhance_request ("B")
        ⟨some ("16"), asciiBytes ("\x7b\"image\":\"AAAA\"\x7d")⟩ w1).1 =
      if (run_realesrgan ("B") (inputPathOf ("B") w1)
            (outputPathOf ("B") w1) w1).1.1 = true ∧ w1.outputExists = true then
        ⟨200, successObj (("/results/") ++ outputFilenameOf w1)⟩
      else
        ⟨500, errObj (("فشل في تحسين الصورة: ") ++
          pyStr (run_realesrgan ("B") (inputPathOf ("B") w1)
            (outputPathOf ("B") w1) w1).1.2)⟩ :=
  C8_response_branches ("B")
    ⟨some ("16"), asciiBytes ("\x7b\"image\":\"AAAA\"\x7d")⟩ w1 16
    (("\x7b\"image\":\"AAAA\"\x7d").data) [(("image"), Json.str ("AAAA"))]
    ("AAAA") [0, 0, 0] rfl rfl rfl rfl rfl rfl

/-- Claim C7 (corrected): `run_realesrgan` ensures the output
directory exists first — before checking for the executable, so the
directory is created even when the executable is absent; if the
executable is absent it returns the descriptive failure without
spawning, and only when present does it execute the fixed constant
command. -/
theorem C7_invoker_order (base ip op : String) (w : World) :
    ((w.exeExists = false →
      run_realesrgan base ip op w =
        ((false, some ("ملف Real-ESRGAN غير موجود")), [Ev.mkdir (dirname op)])) ∧
    (w.exeExists = true →
      (run_realesrgan base ip op w).2 =
        [Ev.mkdir (dirname op), Ev.spawn (realesrganCmd base ip op)])) ∧
    realesrganCmd base ip op =
      [base ++ "/realesrgan-ncnn-vulkan.exe", "-i", ip, "-o", op,
        "-n", "realesrgan-x4plus", "-t", "256", "-j", "1:1:1"] := by
  refine ⟨⟨?_, ?_⟩, rfl⟩
  · intro h
    unfold run_realesrgan
    rw [if_pos h]
  · intro h
    have hn : ¬w.exeExists = false := by rw [h]; decide
    unfold run_realesrgan
    rw [if_neg hn]
    rcases w.procResult with e | ⟨rc, out, err⟩
    · rfl
    · dsimp only
      by_cases hrc : rc = 0
      · rw [if_pos hrc]; rfl
      · rw [if_neg hrc]; rfl

/-- Witness for C7's corrected statement: the executable-absent world
creates the results directory and spawns nothing; the
executable-present world spawns after the same mkdir. -/
theorem C7_invoker_order_witness :
    run_realesrgan ("B") ("i.jpg") ("B/results/o.jpg") w0 =
      ((false, some ("ملف Real-ESRGAN غير موجود")),
        [Ev.mkdir (dirname ("B/results/o.jpg"))]) ∧
    (run_realesrgan ("B") ("i.jpg") ("B/results/o.jpg") w1).2 =
      [Ev.mkdir (dirname ("B/results/o.jpg")),
        Ev.spawn (realesrganCmd ("B") ("i.jpg") ("B/results/o.jpg"))] :=
  ⟨((C7_invoker_order ("B") ("i.jpg") ("B/results/o.jpg") w0).1).1 rfl,
    ((C7_invoker_order ("B") ("i.jpg") ("B/results/o.jpg") w1).1).2 rfl⟩

/-- Counterexample to claim C7 as stated: with the executable absent
the invoker still performs the ensure-output-directory step (its trace
holds the mkdir), contradicting "only when the executable is present
does it ensure the output directory exists". -/
theorem C7_counterexample :
    w0.exeExists = false ∧
    (run_realesrgan ("B") ("i.jpg") ("B/results/o.jpg") w0).1 =
      (false, some ("ملف Real-ESRGAN غير موجود")) ∧
    (run_realesrgan ("B") ("i.jpg") ("B/results/o.jpg") w0).2 =
      [Ev.mkdir ("B/results")] := by
  exact ⟨rfl, rfl, rfl⟩

/-- Claim C9 (confirmed): the GET router joins `base_path` with the
request path minus its leading slash and performs no normalization or
containment check, so the traversal path
`/results/../web_server.py` is served and resolves outside the
results directory. -/
theorem C9_results_path_traversal :
    do_GET ("/srv") ("/results/../web_server.py") (fun _ => true) =
      GetResult.serveFile ("/srv/results/../web_server.py") ∧
    normPath ("/srv/results/../web_server.py") = ("/srv/web_server.py") ∧
    isUnder ("/srv/results") (normPath ("/srv/results/../web_server.py")) =
      false := by
  refine ⟨by decide, by decide, by decide⟩
